import Mathlib

/-!
Shallow embedding of the baruwa-enterprise/sophie Go client
(`sophie.go`, current revision: the file with the error-message
constants `invalidRespErr`, `unknownStatusErr`, `noSizeErr`,
`tcpDirErr`, `unsupportedProtoErr`, `unixSockErr` and the default
command timeout of one minute).

Go strings are modelled as Lean `String` (all wire lines involved are
ASCII, where Go's byte indexing and Lean's character indexing agree).
`time.Duration` is modelled as `Int` nanoseconds.  Fallible calls
return `Except`/`Option`; a Go runtime panic (out-of-range slice, nil
pointer dereference) is modelled by the `Outcome.panicked` constructor.
External effects (filesystem stat/open, dialing, socket reads and
writes) are supplied by oracle parameters, and the network operations a
function performs are recorded in an event trace.
-/

namespace Sophie

/-- Duration of one second in nanoseconds (`time.Second`). -/
def second : Int := 1000000000

/-- Source constant `defaultTimeout = 15 * time.Second`. -/
def defaultTimeout : Int := 15 * second

/-- Source constant `defaultSleep = 1 * time.Second`. -/
def defaultSleep : Int := 1 * second

/-- Source constant `defaultCmdTimeout = 1 * time.Minute`. -/
def defaultCmdTimeout : Int := 60 * second

/-- Source constant `defaultSock`. -/
def defaultSock : String := "/var/lib/savdid/savdid.sock"

/-- Errors the client can return, one constructor per `fmt.Errorf`
site of the source (plus `notExist` for the os-level not-found error
propagated from `os.Stat`, `statFailed` for any other stat failure and
`ioErr` for errors surfaced by the network layer). -/
inductive GoError where
  | unknownStatus
  | invalidResponse (line : String)
  | noSize
  | tcpDir
  | unsupportedProto (network : String)
  | unixSockNotExist (address : String)
  | notExist
  | statFailed (msg : String)
  | ioErr (msg : String)
deriving DecidableEq, Repr

/-- Rendering of each error, following the source format strings. -/
def GoError.message : GoError → String
  | .unknownStatus => "Unknown status"
  | .invalidResponse l => "Invalid server response: " ++ l
  | .noSize => "The content length could not be determined"
  | .tcpDir => "Scanning directories not supported on a TCP connection"
  | .unsupportedProto n => "Protocol: " ++ n ++ " is not supported"
  | .unixSockNotExist a => "The unix socket: " ++ a ++ " does not exist"
  | .notExist => "file does not exist"
  | .statFailed m => m
  | .ioErr m => m

/-- Outcome of running a Go function: a normal return, or a runtime
panic. -/
inductive Outcome (α : Type) where
  | ret (v : α)
  | panicked (msg : String)
deriving DecidableEq, Repr

/-- Go `strings.HasPrefix l p` (all wire lines are ASCII, so byte and
character comparison agree). -/
def goStartsWith (l p : String) : Bool := p.data.isPrefixOf l.data

/-- Go `len l` on a string. -/
def goLen (l : String) : Nat := l.data.length

/-- Go slice expression `l[i:]` on a string: in bounds when
`i ≤ len l`, otherwise a runtime panic. -/
def goSliceFrom (l : String) (i : Nat) : Outcome String :=
  if i ≤ goLen l then .ret ⟨l.data.drop i⟩ else
    .panicked "slice bounds out of range"

/-- The `Response` struct. -/
structure Response where
  Filename : String
  Signature : String
  Infected : Bool
  Raw : String
deriving DecidableEq, Repr

/-- A Go `(r *Response, err error)` pair: either component may be nil
(`none`), and the source does return both non-nil together in some
paths. -/
structure GoResult where
  resp : Option Response
  err : Option GoError
deriving DecidableEq, Repr

/-- The `Client` struct.  `connRetries` is `Nat` because the setter
clamps negative values and the zero value is 0. -/
structure Client where
  network : String
  address : String
  connTimeout : Int
  connRetries : Nat
  connSleep : Int
  cmdTimeout : Int
deriving DecidableEq, Repr

/-- Result of `os.Stat` on a path: success (with directory flag and
size), the os not-found error, or some other stat failure. -/
inductive StatRes where
  | ok (isDir : Bool) (size : Int)
  | notExist
  | otherErr (msg : String)
deriving DecidableEq, Repr

/-- Embedding of `processResponse` (sophie.go): the argument `readRes`
is the result of the `tc.ReadLine()` call, `p` the path argument.  On
a line with leading `"1"`, the source takes `l[2:]`, which panics when
the line is shorter than 2 bytes. -/
def processResponse (readRes : Except GoError String) (p : String) :
    Outcome GoResult :=
  match readRes with
  | .error e => .ret ⟨none, some e⟩
  | .ok l =>
    let r0 : Response :=
      ⟨if p = "" then "stream" else p, "", false, ""⟩
    if goStartsWith l "-1" then
      .ret ⟨some r0, some .unknownStatus⟩
    else if goStartsWith l "1" || goStartsWith l "0" then
      if goStartsWith l "1" then
        match goSliceFrom l 2 with
        | .panicked m => .panicked m
        | .ret sig =>
          .ret ⟨some { r0 with Raw := l, Signature := sig, Infected := true }, none⟩
      else
        .ret ⟨some { r0 with Raw := l }, none⟩
    else
      .ret ⟨some r0, some (.invalidResponse l)⟩

/-- Validation and construction steps of `NewClient` (sophie.go) after
the empty-argument defaulting: reject unsupported protocols, reject a
unix transport whose socket path stats as not-found, then build the
client with the default timeouts.  When the unix-socket stat fails
with an error other than not-found, the source returns both a client
and that residual error. -/
def newClientChecked (sockStat : String → StatRes) (n a : String) :
    Option Client × Option GoError :=
  if n ≠ "unix" && n ≠ "unixpacket" && n ≠ "tcp" && n ≠ "tcp4" &&
      n ≠ "tcp6" then
    (none, some (.unsupportedProto n))
  else if (n = "unix" || n = "unixpacket") &&
      sockStat a matches .notExist then
    (none, some (.unixSockNotExist a))
  else
    (some ⟨n, a, defaultTimeout, 0, defaultSleep, defaultCmdTimeout⟩,
      if n = "unix" || n = "unixpacket" then
        match sockStat a with
        | .otherErr m => some (.statFailed m)
        | _ => none
      else none)

/-- Embedding of `NewClient` (sophie.go): empty network and address
select the unix transport at the default socket path, then the checks
of `newClientChecked` run.  `sockStat` models `os.Stat` on the socket
path. -/
def NewClient (sockStat : String → StatRes) (network address : String) :
    Option Client × Option GoError :=
  newClientChecked sockStat
    (if network = "" && address = "" then "unix" else network)
    (if network = "" && address = "" then defaultSock else address)

/-- Result of one `d.Dial` attempt: success, an error classified as a
timeout (`net.Error` with `Timeout() = true`), or any other failure. -/
inductive DialAttempt where
  | ok
  | timeout (msg : String)
  | failure (msg : String)
deriving DecidableEq, Repr

/-- True exactly on timeout-classified dial errors. -/
def DialAttempt.isTimeout : DialAttempt → Bool
  | .timeout _ => true
  | _ => false

/-- Trace of one run of the `dial` retry loop: the final result, the
number of `d.Dial` calls made, and the number of `time.Sleep(connSleep)`
calls made. -/
structure DialTrace where
  result : DialAttempt
  attempts : Nat
  sleeps : Nat
deriving DecidableEq, Repr

/-- Body of the `dial` loop starting at index `i` with `remaining`
further iterations allowed (the Go loop runs `i = 0 .. connRetries`).
A timeout-classified failure sleeps and continues; any other result
breaks out of the loop immediately. -/
def dialLoop (attempt : Nat → DialAttempt) (i : Nat) :
    Nat → DialTrace
  | 0 =>
    ⟨attempt i, 1, if (attempt i).isTimeout then 1 else 0⟩
  | n + 1 =>
    match attempt i with
    | .timeout _ =>
      let t := dialLoop attempt (i + 1) n
      ⟨t.result, t.attempts + 1, t.sleeps + 1⟩
    | r => ⟨r, 1, 0⟩

/-- Embedding of `Client.dial` (sophie.go): runs the retry loop from
attempt 0 with `connRetries` additional iterations allowed. -/
def Client.dial (c : Client) (attempt : Nat → DialAttempt) : DialTrace :=
  dialLoop attempt 0 c.connRetries

/-- Network operations performed on a connection, in order: the
`c.dial()` call, a `tc.PrintfLine` of a request line, a `tc.ReadLine`,
and the `io.Copy` writing the payload bytes. -/
inductive NetEvent where
  | dialAttempt
  | sentLine (s : String)
  | lineRead
  | sentPayload
deriving DecidableEq, Repr

/-- Oracle describing what the network does during one scan: the
outcome of `c.dial()`, of each `tc.PrintfLine` (keyed by the line
written), of the n-th `tc.ReadLine` on the connection, and of the
`io.Copy` of the payload.  Failures carry the raw error message and
surface as `GoError.ioErr`. -/
structure NetEnv where
  dialRes : Except String Unit
  sendRes : String → Except String Unit
  read : Nat → Except String String
  copyRes : Except String Int

/-- Lift a network-layer result into the client's error type. -/
def ioLift {α : Type} : Except String α → Except GoError α
  | .error m => .error (.ioErr m)
  | .ok v => .ok v

/-- The content sources recognized by the type switch of `readerCmd`:
`*bytes.Buffer`, `*bytes.Reader`, `*strings.Reader` (each carrying its
`Len()`), `*os.File` (carrying the result of `v.Stat()`, whose success
yields `Size()`), and the default case for every other reader. -/
inductive Source where
  | bytesBuffer (len : Int)
  | bytesReader (len : Int)
  | stringsReader (len : Int)
  | file (statRes : Except String Int)
  | unknown
deriving Repr

/-- The type switch of `readerCmd` determining `clen`: files report
their `Stat` size (a failed stat surfaces as its own error), the
default case fails with the content-length error. -/
def sourceLen : Source → Except GoError Int
  | .bytesBuffer n => .ok n
  | .bytesReader n => .ok n
  | .stringsReader n => .ok n
  | .file (.ok n) => .ok n
  | .file (.error m) => .error (.statFailed m)
  | .unknown => .error .noSize

/-- Embedding of `readerCmd` (sophie.go): dial, determine the content
length, send `stream/<clen>`, read the acknowledgement line (which
must be `"OK"`), copy the payload, then read and decode the verdict
line.  Returns the Go result together with the trace of network
events. -/
def readerCmd (_c : Client) (env : NetEnv) (src : Source) :
    Outcome GoResult × List NetEvent :=
  match env.dialRes with
  | .error m => (.ret ⟨none, some (.ioErr m)⟩, [.dialAttempt])
  | .ok _ =>
    match sourceLen src with
    | .error e => (.ret ⟨none, some e⟩, [.dialAttempt])
    | .ok clen =>
      let reqLine := "stream/" ++ toString clen
      match env.sendRes reqLine with
      | .error m =>
        (.ret ⟨none, some (.ioErr m)⟩, [.dialAttempt, .sentLine reqLine])
      | .ok _ =>
        match env.read 0 with
        | .error m =>
          (.ret ⟨none, some (.ioErr m)⟩,
            [.dialAttempt, .sentLine reqLine, .lineRead])
        | .ok l =>
          if l ≠ "OK" then
            (.ret ⟨none, some (.invalidResponse l)⟩,
              [.dialAttempt, .sentLine reqLine, .lineRead])
          else
            match env.copyRes with
            | .error m =>
              (.ret ⟨none, some (.ioErr m)⟩,
                [.dialAttempt, .sentLine reqLine, .lineRead, .sentPayload])
            | .ok _ =>
              (processResponse (ioLift (env.read 1)) "",
                [.dialAttempt, .sentLine reqLine, .lineRead, .sentPayload,
                 .lineRead])

/-- Filesystem oracle for `fileCmd`: `os.Stat` on the path, `os.Open`
on the path, and the `Stat().Size()` of the opened file handle. -/
structure FS where
  stat : String → StatRes
  openRes : String → Except String Unit
  openStat : String → Except String Int

/-- Embedding of `fileCmd` (sophie.go).  The path is stat-ed; an
os-level not-found error returns immediately.  On a non-unix transport
the source then calls `stat.IsDir()` — a nil dereference (panic) when
the stat failed with an error other than not-found.  Directories on
TCP are rejected before any network I/O; otherwise the opened file is
delegated to `readerCmd`.  On a unix transport the path itself is sent
as the request line and the single verdict line is decoded. -/
def fileCmd (c : Client) (fs : FS) (env : NetEnv) (p : String) :
    Outcome GoResult × List NetEvent :=
  match fs.stat p with
  | .notExist => (.ret ⟨none, some .notExist⟩, [])
  | statRes =>
    if c.network ≠ "unix" && c.network ≠ "unixpacket" then
      match statRes with
      | .otherErr _ =>
        (.panicked "runtime error: invalid memory address or nil pointer dereference", [])
      | .ok isDir _ =>
        if isDir then (.ret ⟨none, some .tcpDir⟩, [])
        else
          match fs.openRes p with
          | .error m => (.ret ⟨none, some (.ioErr m)⟩, [])
          | .ok _ => readerCmd c env (.file (fs.openStat p))
      | .notExist => (.ret ⟨none, some .notExist⟩, [])
    else
      match env.dialRes with
      | .error m => (.ret ⟨none, some (.ioErr m)⟩, [.dialAttempt])
      | .ok _ =>
        match env.sendRes p with
        | .error m =>
          (.ret ⟨none, some (.ioErr m)⟩, [.dialAttempt, .sentLine p])
        | .ok _ =>
          (processResponse (ioLift (env.read 0)) p,
            [.dialAttempt, .sentLine p, .lineRead])

/-- Embedding of `Scan` (sophie.go), which delegates to `fileCmd`. -/
def Client.Scan (c : Client) (fs : FS) (env : NetEnv) (p : String) :
    Outcome GoResult × List NetEvent :=
  fileCmd c fs env p

/-- Embedding of `ScanReader` (sophie.go), which delegates to
`readerCmd`. -/
def Client.ScanReader (c : Client) (env : NetEnv) (src : Source) :
    Outcome GoResult × List NetEvent :=
  readerCmd c env src

/-!
Helper lemmas shared by the claim theorems.
-/

/-- A line with leading `"1"` has `'1'` as its first character. -/
theorem exists_head_of_one (l : String) (h : goStartsWith l "1" = true) :
    ∃ cs, l.data = '1' :: cs := by
  unfold goStartsWith at h
  cases hd : l.data with
  | nil => rw [hd] at h; simp [List.isPrefixOf] at h
  | cons a as =>
    rw [hd] at h
    simp [List.isPrefixOf] at h
    exact ⟨as, by rw [← h]⟩

/-- A line with leading `"1"` does not have leading `"-1"`. -/
theorem not_neg_of_one (l : String) (h : goStartsWith l "1" = true) :
    goStartsWith l "-1" = false := by
  obtain ⟨cs, hd⟩ := exists_head_of_one l h
  unfold goStartsWith
  rw [hd]
  simp [List.isPrefixOf]

/-- The dial loop makes at most one more attempt than the remaining
iteration budget. -/
theorem dialLoop_attempts_le (attempt : Nat → DialAttempt) :
    ∀ n i, (dialLoop attempt i n).attempts ≤ n + 1 := by
  intro n
  induction n with
  | zero => intro i; simp [dialLoop]
  | succ m ih =>
    intro i
    cases h : attempt i with
    | timeout s =>
      simp [dialLoop, h]
      exact ih (i + 1)
    | ok => simp [dialLoop, h]
    | failure s => simp [dialLoop, h]

/-- When every attempt in the budget is a timeout, the dial loop runs
the whole budget, sleeps after each attempt, and ends with the last
attempt's result. -/
theorem dialLoop_all_timeout (attempt : Nat → DialAttempt) :
    ∀ n i, (∀ k, k ≤ n → (attempt (i + k)).isTimeout = true) →
    dialLoop attempt i n = ⟨attempt (i + n), n + 1, n + 1⟩ := by
  intro n
  induction n with
  | zero =>
    intro i h
    have h0 := h 0 (by omega)
    simp at h0
    simp [dialLoop, h0]
  | succ m ih =>
    intro i h
    have h0 := h 0 (by omega)
    simp at h0
    cases ha : attempt i with
    | timeout s =>
      have := ih (i + 1) (fun k hk => by
        have := h (k + 1) (by omega)
        simpa [Nat.add_assoc, Nat.add_comm 1 k] using this)
      simp [dialLoop, ha, this]
      congr 1
      omega
    | ok => rw [ha] at h0; simp [DialAttempt.isTimeout] at h0
    | failure s => rw [ha] at h0; simp [DialAttempt.isTimeout] at h0

/-- When attempt `j` is the first attempt in the budget that is not a
timeout, the dial loop stops there: `j + 1` attempts, one sleep per
preceding timeout, result of attempt `j`. -/
theorem dialLoop_first_break (attempt : Nat → DialAttempt) :
    ∀ j n i, j ≤ n → (∀ k, k < j → (attempt (i + k)).isTimeout = true) →
    (attempt (i + j)).isTimeout = false →
    dialLoop attempt i n = ⟨attempt (i + j), j + 1, j⟩ := by
  intro j
  induction j with
  | zero =>
    intro n i _ _ hstop
    simp at hstop
    cases n with
    | zero => simp [dialLoop, hstop]
    | succ m =>
      cases ha : attempt i with
      | timeout s => rw [ha] at hstop; simp [DialAttempt.isTimeout] at hstop
      | ok => simp [dialLoop, ha]
      | failure s => simp [dialLoop, ha]
  | succ q ih =>
    intro n i hj hpre hstop
    cases n with
    | zero => omega
    | succ m =>
      have h0 := hpre 0 (by omega)
      simp at h0
      cases ha : attempt i with
      | timeout s =>
        have := ih m (i + 1) (by omega)
          (fun k hk => by
            have := hpre (k + 1) (by omega)
            simpa [Nat.add_assoc, Nat.add_comm 1 k] using this)
          (by
            have he : i + 1 + q = i + (q + 1) := by omega
            rw [he]
            exact hstop)
        simp [dialLoop, ha, this]
        congr 1
        omega
      | ok => rw [ha] at h0; simp [DialAttempt.isTimeout] at h0
      | failure s => rw [ha] at h0; simp [DialAttempt.isTimeout] at h0

/-- The type switch only produces the content-length error in its
default case. -/
theorem sourceLen_ne_noSize (src : Source) (hne : src ≠ Source.unknown) :
    sourceLen src ≠ .error .noSize := by
  cases src with
  | bytesBuffer n => simp [sourceLen]
  | bytesReader n => simp [sourceLen]
  | stringsReader n => simp [sourceLen]
  | file st => cases st <;> simp [sourceLen]
  | unknown => exact absurd rfl hne

/-- Decoding a line read from the network never returns the
content-length error. -/
theorem processResponse_ioLift_err (x : Except String String) (p : String)
    (g : GoResult) (h : processResponse (ioLift x) p = .ret g) :
    g.err ≠ some GoError.noSize := by
  cases x with
  | error m =>
    simp [ioLift, processResponse] at h
    subst h
    simp
  | ok l =>
    cases hn : goStartsWith l "-1" with
    | true =>
      simp [ioLift, processResponse, hn] at h
      subst h
      simp
    | false =>
    cases h1 : goStartsWith l "1" with
    | true =>
      by_cases hlen : 2 ≤ goLen l
      · simp [ioLift, processResponse, hn, h1, goSliceFrom, hlen] at h
        subst h
        simp
      · simp [ioLift, processResponse, hn, h1, goSliceFrom, hlen] at h
    | false =>
    cases h0 : goStartsWith l "0" with
    | true =>
      simp [ioLift, processResponse, hn, h1, h0] at h
      subst h
      simp
    | false =>
      simp [ioLift, processResponse, hn, h1, h0] at h
      subst h
      simp

/-!
Claim theorems.
-/

/-- Claim C1 (corrected), counterexample: decoding the line
`"1EICAR-AV-Test"` yields the signature `"ICAR-AV-Test"` — the line
with its first two characters stripped — not `"EICAR-AV-Test"` as the
claim states. -/
theorem c1_eicar_counterexample :
    processResponse (.ok "1EICAR-AV-Test") "f" =
      .ret ⟨some ⟨"f", "ICAR-AV-Test", true, "1EICAR-AV-Test"⟩, none⟩ ∧
    ("ICAR-AV-Test" : String) ≠ "EICAR-AV-Test" := by
  constructor
  · decide
  · decide

/-- Claim C1 (corrected): for every response line of length at least 2
beginning with `"1"`, `processResponse` returns a `Response` with
`Infected = true`, `Raw` the full line and `Signature` the line with
the 2-character status marker stripped (so `"1EICAR-AV-Test"` yields
signature `"ICAR-AV-Test"`). -/
theorem c1_infected_line_decode (l p : String)
    (h1 : goStartsWith l "1" = true) (h2 : 2 ≤ goLen l) :
    processResponse (.ok l) p =
      .ret ⟨some ⟨if p = "" then "stream" else p, ⟨l.data.drop 2⟩,
        true, l⟩, none⟩ := by
  have hneg := not_neg_of_one l h1
  simp [processResponse, h1, hneg, goSliceFrom, h2]

/-- Claim C1, witness for `c1_infected_line_decode` at the line
`"1EICAR-AV-Test"`. -/
theorem c1_infected_line_decode_witness :
    goStartsWith "1EICAR-AV-Test" "1" = true ∧
    2 ≤ goLen "1EICAR-AV-Test" ∧
    processResponse (.ok "1EICAR-AV-Test") "f" =
      .ret ⟨some ⟨"f", "ICAR-AV-Test", true, "1EICAR-AV-Test"⟩, none⟩ := by
  refine ⟨by decide, by decide, ?_⟩
  rw [c1_infected_line_decode "1EICAR-AV-Test" "f" (by decide) (by decide)]
  decide

/-- Claim C2 (confirmed): every response line without leading `"0"`,
`"1"` or `"-1"` fails decoding with the invalid-server-response error
carrying the received line, whose message mentions that line. -/
theorem c2_unexpected_response (l p : String)
    (h0 : goStartsWith l "0" = false) (h1 : goStartsWith l "1" = false)
    (hn : goStartsWith l "-1" = false) :
    processResponse (.ok l) p =
      .ret ⟨some ⟨if p = "" then "stream" else p, "", false, ""⟩,
        some (.invalidResponse l)⟩ ∧
    (GoError.invalidResponse l).message =
      "Invalid server response: " ++ l := by
  constructor
  · simp [processResponse, h0, h1, hn]
  · rfl

/-- Claim C2, witness for `c2_unexpected_response` at the line
`"FOO"`. -/
theorem c2_unexpected_response_witness :
    goStartsWith "FOO" "0" = false ∧ goStartsWith "FOO" "1" = false ∧
    goStartsWith "FOO" "-1" = false ∧
    processResponse (.ok "FOO") "f" =
      .ret ⟨some ⟨"f", "", false, ""⟩, some (.invalidResponse "FOO")⟩ := by
  refine ⟨by decide, by decide, by decide, ?_⟩
  rw [(c2_unexpected_response "FOO" "f" (by decide) (by decide)
    (by decide)).1]
  decide

/-- Claim C3 (corrected), counterexample: the two-character line
`"10"` decodes successfully into a `Response` with `Infected = true`
and an empty `Signature`, so a non-empty signature is not equivalent
to the infected flag. -/
theorem c3_two_char_counterexample :
    processResponse (.ok "10") "" =
      .ret ⟨some ⟨"stream", "", true, "10"⟩, none⟩ ∧
    (Response.mk "stream" "" true "10").Infected = true ∧
    (Response.mk "stream" "" true "10").Signature = "" :=
  ⟨by decide, rfl, rfl⟩

/-- Claim C3 (corrected): for every `Response` produced by a
successful decode, `Signature` is non-empty exactly when `Infected` is
true and the raw response line is longer than 2 characters. -/
theorem c3_signature_infected_iff (l p : String) (r : Response)
    (h : processResponse (.ok l) p = .ret ⟨some r, none⟩) :
    r.Signature ≠ "" ↔ (r.Infected = true ∧ 2 < goLen r.Raw) := by
  cases hn : goStartsWith l "-1" with
  | true => simp [processResponse, hn] at h
  | false =>
  cases h1 : goStartsWith l "1" with
  | true =>
    by_cases hlen : 2 ≤ goLen l
    · simp [processResponse, hn, h1, goSliceFrom, hlen] at h
      subst h
      simp [goLen]
      constructor
      · intro hne
        have hgt : ¬ (l.data.length ≤ 2) := by
          intro hle
          exact hne (congrArg String.mk (List.drop_eq_nil_iff.mpr hle))
        have e1 : goLen l = l.data.length := rfl
        have e2 : l.length = l.data.length := rfl
        omega
      · intro hlt heq
        have hd : l.data.drop 2 = [] := congrArg String.data heq
        rw [List.drop_eq_nil_iff] at hd
        have e1 : goLen l = l.data.length := rfl
        have e2 : l.length = l.data.length := rfl
        omega
    · simp [processResponse, hn, h1, goSliceFrom, hlen] at h
  | false =>
  cases h0 : goStartsWith l "0" with
  | true =>
    simp [processResponse, hn, h1, h0] at h
    subst h
    simp
  | false =>
    simp [processResponse, hn, h1, h0] at h

/-- Claim C3, witness for `c3_signature_infected_iff` at the decoded
line `"1EICAR-AV-Test"`. -/
theorem c3_signature_infected_iff_witness :
    (Response.mk "stream" "ICAR-AV-Test" true "1EICAR-AV-Test").Signature
        ≠ "" ↔
      ((Response.mk "stream" "ICAR-AV-Test" true
          "1EICAR-AV-Test").Infected = true ∧
        2 < goLen (Response.mk "stream" "ICAR-AV-Test" true
          "1EICAR-AV-Test").Raw) :=
  c3_signature_infected_iff "1EICAR-AV-Test" ""
    ⟨"stream", "ICAR-AV-Test", true, "1EICAR-AV-Test"⟩ (by decide)

/-- Claim C4 (confirmed): every client constructed by `NewClient` has
connect timeout 15s, command timeout 60s, retry sleep 1s and 0
connect retries. -/
theorem c4_new_client_defaults (sockStat : String → StatRes)
    (network address : String) (c : Client) (e : Option GoError)
    (h : NewClient sockStat network address = (some c, e)) :
    c.connTimeout = 15 * second ∧ c.cmdTimeout = 60 * second ∧
    c.connSleep = 1 * second ∧ c.connRetries = 0 := by
  unfold NewClient newClientChecked at h
  split_ifs at h <;> simp_all <;>
    (obtain ⟨hc, -⟩ := h; subst hc; exact ⟨rfl, rfl, rfl, rfl⟩)

/-- Claim C4, witness for `c4_new_client_defaults` on a TCP client. -/
theorem c4_new_client_defaults_witness :
    NewClient (fun _ => .ok false 0) "tcp" "127.0.0.1:4010" =
      (some ⟨"tcp", "127.0.0.1:4010", defaultTimeout, 0, defaultSleep,
        defaultCmdTimeout⟩, none) ∧
    (Client.mk "tcp" "127.0.0.1:4010" defaultTimeout 0 defaultSleep
        defaultCmdTimeout).connTimeout = 15 * second ∧
    (Client.mk "tcp" "127.0.0.1:4010" defaultTimeout 0 defaultSleep
        defaultCmdTimeout).cmdTimeout = 60 * second ∧
    (Client.mk "tcp" "127.0.0.1:4010" defaultTimeout 0 defaultSleep
        defaultCmdTimeout).connSleep = 1 * second ∧
    (Client.mk "tcp" "127.0.0.1:4010" defaultTimeout 0 defaultSleep
        defaultCmdTimeout).connRetries = 0 :=
  ⟨by decide, c4_new_client_defaults (fun _ => .ok false 0) "tcp"
    "127.0.0.1:4010" _ none (by decide)⟩

/-- Claim C5 (confirmed): `dial` makes at most `connRetries + 1`
attempts; the first attempt that is not a timeout-classified failure
ends the loop immediately with that result, after one sleep per
preceding timeout; and when every attempt times out, the loop runs
`connRetries + 1` attempts and returns the last timeout. -/
theorem c5_dial_retry_policy (c : Client) (attempt : Nat → DialAttempt) :
    (c.dial attempt).attempts ≤ c.connRetries + 1 ∧
    (∀ j, j ≤ c.connRetries →
      (∀ k, k < j → (attempt k).isTimeout = true) →
      (attempt j).isTimeout = false →
      c.dial attempt = ⟨attempt j, j + 1, j⟩) ∧
    ((∀ k, k ≤ c.connRetries → (attempt k).isTimeout = true) →
      c.dial attempt = ⟨attempt c.connRetries, c.connRetries + 1,
        c.connRetries + 1⟩) := by
  refine ⟨dialLoop_attempts_le attempt c.connRetries 0, ?_, ?_⟩
  · intro j hj hpre hstop
    have hb := dialLoop_first_break attempt j c.connRetries 0 hj
      (fun k hk => by simpa using hpre k hk) (by simpa using hstop)
    simpa [Client.dial] using hb
  · intro h
    have hb := dialLoop_all_timeout attempt c.connRetries 0
      (fun k hk => by simpa using h k hk)
    simpa [Client.dial] using hb

/-- Claim C5, witness for `c5_dial_retry_policy`: with 3 retries
allowed, a timeout on the first attempt and a refused connection on
the second, dialing stops after 2 attempts and 1 sleep with the
non-timeout error. -/
theorem c5_dial_retry_policy_witness :
    Client.dial ⟨"tcp", "127.0.0.1:4010", 0, 3, 0, 0⟩
      (fun i => if i = 0 then .timeout "dial timeout"
        else .failure "connection refused") =
      ⟨.failure "connection refused", 2, 1⟩ := by
  have h := (c5_dial_retry_policy ⟨"tcp", "127.0.0.1:4010", 0, 3, 0, 0⟩
    (fun i => if i = 0 then .timeout "dial timeout"
      else .failure "connection refused")).2.1 1 (by decide)
    (fun k hk => by
      have hk0 : k = 0 := by omega
      subst hk0
      decide)
    (by decide)
  simpa using h

/-- Claim C6 (confirmed): on a client whose transport is not unix or
unixpacket, `Scan` of a path that stats as a directory fails with the
directories-not-supported error and performs no network operation at
all (the event trace is empty, so no dial occurs). -/
theorem c6_tcp_directory_rejected (c : Client) (fs : FS) (env : NetEnv)
    (p : String) (sz : Int)
    (h1 : c.network ≠ "unix") (h2 : c.network ≠ "unixpacket")
    (hstat : fs.stat p = .ok true sz) :
    Client.Scan c fs env p = (.ret ⟨none, some .tcpDir⟩, []) := by
  simp [Client.Scan, fileCmd, hstat, h1, h2]

/-- Claim C6, witness for `c6_tcp_directory_rejected` on a TCP client
scanning a directory. -/
theorem c6_tcp_directory_rejected_witness :
    Client.Scan ⟨"tcp", "127.0.0.1:4010", 0, 0, 0, 0⟩
      ⟨fun _ => .ok true 4096, fun _ => .ok (), fun _ => .ok 0⟩
      ⟨.ok (), fun _ => .ok (), fun _ => .ok "0", .ok 0⟩ "/data" =
      (.ret ⟨none, some .tcpDir⟩, []) :=
  c6_tcp_directory_rejected _ _ _ _ 4096 (by decide) (by decide) rfl

/-- Claim C7 (confirmed): when the source length `n` is known and the
connection is up, `ScanReader` sends exactly the line `stream/n`
directly after dialing and before any payload write; and when the
acknowledgement line read next is not the literal `"OK"`, it fails
with the invalid-server-response error carrying the received line,
with a trace containing no payload write. -/
theorem c7_stream_request_line (c : Client) (env : NetEnv) (src : Source)
    (n : Int) (hd : env.dialRes = .ok ()) (hl : sourceLen src = .ok n)
    (hs : env.sendRes ("stream/" ++ toString n) = .ok ()) :
    ((Client.ScanReader c env src).2.take 2 =
      [.dialAttempt, .sentLine ("stream/" ++ toString n)]) ∧
    (∀ l, env.read 0 = .ok l → l ≠ "OK" →
      Client.ScanReader c env src =
        (.ret ⟨none, some (.invalidResponse l)⟩,
         [.dialAttempt, .sentLine ("stream/" ++ toString n),
          .lineRead])) := by
  constructor
  · unfold Client.ScanReader readerCmd
    rw [hd, hl]
    simp only [hs]
    cases hr : env.read 0 with
    | error m => simp
    | ok l =>
      by_cases hok : l = "OK"
      · subst hok
        simp
        cases env.copyRes <;> simp
      · simp [hok]
  · intro l hr hne
    unfold Client.ScanReader readerCmd
    rw [hd, hl]
    simp only [hs, hr]
    simp [hne]

/-- Claim C7, witness for `c7_stream_request_line`: a 68-byte buffer
whose acknowledgement comes back as `"NOPE"`. -/
theorem c7_stream_request_line_witness :
    Client.ScanReader ⟨"tcp", "127.0.0.1:4010", 0, 0, 0, 0⟩
      ⟨.ok (), fun _ => .ok (), fun _ => .ok "NOPE", .ok 68⟩
      (.bytesBuffer 68) =
      (.ret ⟨none, some (.invalidResponse "NOPE")⟩,
       [.dialAttempt, .sentLine "stream/68", .lineRead]) := by
  have h := (c7_stream_request_line ⟨"tcp", "127.0.0.1:4010", 0, 0, 0, 0⟩
    ⟨.ok (), fun _ => .ok (), fun _ => .ok "NOPE", .ok 68⟩
    (.bytesBuffer 68) 68 rfl rfl rfl).2 "NOPE" rfl (by decide)
  simpa using h

/-- Claim C8 (confirmed): a reader that is none of the recognized
sized kinds makes `ScanReader` fail with the content-length error
(after the dial, which precedes the type switch in the source), while
for every recognized kind the type switch itself determines the
length — it never yields the content-length error, and no run of
`ScanReader` on such a source returns it. -/
theorem c8_unknown_length (c : Client) (env : NetEnv)
    (hd : env.dialRes = .ok ()) :
    (Client.ScanReader c env .unknown =
      (.ret ⟨none, some .noSize⟩, [.dialAttempt])) ∧
    (∀ src, src ≠ Source.unknown → sourceLen src ≠ .error .noSize) ∧
    (∀ src g tr, src ≠ Source.unknown →
      Client.ScanReader c env src = (.ret g, tr) →
      g.err ≠ some GoError.noSize) := by
  refine ⟨?_, fun src hne => sourceLen_ne_noSize src hne, ?_⟩
  · unfold Client.ScanReader readerCmd
    rw [hd]
    simp [sourceLen]
  · intro src g tr hne h
    unfold Client.ScanReader readerCmd at h
    rw [hd] at h
    cases hsl : sourceLen src with
    | error e =>
      simp only [hsl] at h
      simp at h
      obtain ⟨hg, -⟩ := h
      subst hg
      have hs := sourceLen_ne_noSize src hne
      rw [hsl] at hs
      simp only [GoResult.err]
      intro he
      injection he with he2
      exact hs (by rw [he2])
    | ok clen =>
      simp only [hsl] at h
      cases hsend : env.sendRes ("stream/" ++ toString clen) with
      | error m =>
        simp only [hsend] at h
        simp at h
        obtain ⟨hg, -⟩ := h
        subst hg
        simp
      | ok u =>
        simp only [hsend] at h
        cases hr : env.read 0 with
        | error m =>
          simp only [hr] at h
          simp at h
          obtain ⟨hg, -⟩ := h
          subst hg
          simp
        | ok l =>
          simp only [hr] at h
          by_cases hok : l = "OK"
          · subst hok
            simp at h
            cases hc : env.copyRes with
            | error m =>
              simp only [hc] at h
              simp at h
              obtain ⟨hg, -⟩ := h
              subst hg
              simp
            | ok k =>
              simp only [hc] at h
              simp at h
              obtain ⟨hg, -⟩ := h
              exact processResponse_ioLift_err (env.read 1) "" g hg
          · simp [hok] at h
            obtain ⟨hg, -⟩ := h
            subst hg
            simp

/-- Claim C8, witness for `c8_unknown_length` on an unrecognized
reader kind. -/
theorem c8_unknown_length_witness :
    Client.ScanReader ⟨"tcp", "127.0.0.1:4010", 0, 0, 0, 0⟩
      ⟨.ok (), fun _ => .ok (), fun _ => .ok "OK", .ok 0⟩ .unknown =
      (.ret ⟨none, some .noSize⟩, [.dialAttempt]) :=
  (c8_unknown_length ⟨"tcp", "127.0.0.1:4010", 0, 0, 0, 0⟩
    ⟨.ok (), fun _ => .ok (), fun _ => .ok "OK", .ok 0⟩ rfl).1

/-- Claim C9 (code bug): decoding the one-character response line
`"1"` takes the slice `l[2:]` out of bounds — the embedded decoder
panics instead of returning, because `2 ≤ len "1"` fails. -/
theorem c9_short_infected_line_panics :
    processResponse (.ok "1") "f" = .panicked "slice bounds out of range" ∧
    goStartsWith "1" "1" = true ∧ ¬ 2 ≤ goLen "1" :=
  ⟨by decide, by decide, by decide⟩

/-- Claim C10 (code bug): on a TCP-family client, when `os.Stat` fails
with an error other than not-found (for example permission denied),
`Scan` reaches `stat.IsDir()` on the nil `FileInfo` and panics with a
nil pointer dereference instead of returning the stat error. -/
theorem c10_stat_error_nil_deref :
    Client.Scan ⟨"tcp", "127.0.0.1:4010", defaultTimeout, 0, defaultSleep,
        defaultCmdTimeout⟩
      ⟨fun _ => .otherErr "permission denied", fun _ => .ok (),
        fun _ => .ok 0⟩
      ⟨.ok (), fun _ => .ok (), fun _ => .ok "0", .ok 0⟩ "/etc/secret" =
      (.panicked "runtime error: invalid memory address or nil pointer dereference",
        []) := by
  decide

end Sophie
